import Mathlib

/-!
Verification of `godzillops/google.py` (the `GoogleAdmin` class).

The Python source is shallowly embedded: the remote Google API is modelled
as an explicit environment of call outcomes, and the generator function
`create_user` is modelled as a function producing the ordered trace of
remote calls and yielded progress events, together with the run outcome
(normal completion or a propagated exception).  Pure helpers
(`_generate_password`, `_get_primary_domain`, `_create_message`,
`is_username_available`) are embedded directly.
-/

namespace Godzillops

/-! ## Module-level constants (google.py lines 28-29) -/

/-- Python `string.ascii_letters`. -/
def ascii_letters : String :=
  "abcdefghijklmnopqrstuvwxyzABCDEFGHIJKLMNOPQRSTUVWXYZ"

/-- Python `string.punctuation`. -/
def punctuation : String :=
  "!\"#$%&\x27()*+,-./:;<=>?@[\\]^_\x60\x7b|\x7d~"

/-- Python `string.digits`. -/
def digits : String :=
  "0123456789"

/-- `PASSWORD_CHARACTERS = string.ascii_letters + string.punctuation + string.digits` -/
def PASSWORD_CHARACTERS : String :=
  ascii_letters ++ punctuation ++ digits

/-- `PASSWORD_LENGTH = 18` -/
def PASSWORD_LENGTH : Nat := 18

/-! ## Data model -/

/-- The `'name'` sub-dictionary of the user insert body. -/
structure FullName where
  givenName : String
  familyName : String
deriving DecidableEq, Repr

/-- One entry of the `emails` list in the user insert body.  The second
entry in the source omits the `'primary'` key, modelled as `none`. -/
structure EmailEntry where
  address : String
  primary : Option Bool
  type : String
deriving DecidableEq, Repr

/-- One entry of the `organizations` list in the user insert body. -/
structure OrgEntry where
  primary : Bool
  title : String
deriving DecidableEq, Repr

/-- The body dictionary passed to `admin_service.users().insert` (lines 79-85). -/
structure UserBody where
  name : FullName
  password : String
  changePasswordAtNextLogin : Bool
  primaryEmail : String
  emails : List EmailEntry
  organizations : List OrgEntry
deriving DecidableEq, Repr

/-- The structured content of the MIME message built by `_create_message`
(lines 129-133): the `to`, `from` and `subject` headers and the plain-text
body.  The base64url encoding of the stdlib `MIMEText` serialization is
external-library behaviour and injective on this content, so the message
is modelled by its content. -/
structure GmailMessage where
  to_ : String
  from_ : String
  subject : String
  text : String
deriving DecidableEq, Repr

/-- An `HttpError` raised by a remote `.execute()` call, identified by the
HTTP status of its response (`error.resp.status`). -/
structure HttpErr where
  status : Nat
deriving DecidableEq, Repr

/-- Outcome of one remote `.execute()` call. -/
inductive CallResult where
  | ok
  | err (e : HttpErr)
deriving DecidableEq, Repr

/-- The session state of a `GoogleAdmin` instance that `create_user` reads:
the delegated super-admin account and the cached primary domain
(`self.sub_account`, `self.primary_domain`). -/
structure GoogleAdmin where
  sub_account : String
  primary_domain : String
deriving DecidableEq, Repr

/-- Outcomes of the remote calls that one `create_user` run can make:
the user insert, the member insert for each group key, and the Gmail send. -/
structure Env where
  insertUser : CallResult
  insertMember : String → CallResult
  send : CallResult

/-- One observable step of a `create_user` run: a remote call made, or a
progress string yielded by the generator.  `deleteUser` and `removeMember`
are the Admin SDK's rollback operations; they are included so that
"no rollback call is made" is a non-vacuous statement about traces. -/
inductive Action where
  | insertUser (body : UserBody)
  | progress (msg : String)
  | insertMember (groupKey : String) (email : String) (role : String)
  | send (userId : String) (msg : GmailMessage)
  | deleteUser (userKey : String)
  | removeMember (groupKey : String) (memberKey : String)
deriving DecidableEq, Repr

/-- How a fully-consumed `create_user` generator run ends: normal exhaustion,
or an exception propagating out of the generator. -/
inductive Outcome where
  | success
  | raised (e : HttpErr)
deriving DecidableEq, Repr

/-! ## Embedded operations -/

/-- `_generate_password` (lines 172-179): 18 draws of `random.choice` from
`PASSWORD_CHARACTERS`, joined.  The random source is modelled as a stream
`rng` of naturals; draw `i` picks character `rng i % 94` of the alphabet,
as `random.choice` picks a uniformly random valid index. -/
def _generate_password (rng : Nat → Nat) : String :=
  String.mk ((List.range PASSWORD_LENGTH).map
    (fun i => PASSWORD_CHARACTERS.data.getD (rng i % PASSWORD_CHARACTERS.data.length) 'a'))

/-- One domain record of the `domains().list` response: its `'domainName'`
and `'isPrimary'` fields. -/
structure Domain where
  domainName : String
  isPrimary : Bool
deriving DecidableEq, Repr

/-- `_get_primary_domain` (lines 181-192), applied to the `'domains'` list of
the remote response: returns the first domain flagged primary, and falls off
the end of the function (Python `None`) when no domain is flagged primary. -/
def _get_primary_domain : List Domain → Option String
  | [] => none
  | d :: rest => if d.isPrimary then some d.domainName else _get_primary_domain rest

/-- Result of the `users().get(userKey=email).execute()` call inside
`is_username_available`: normal return (user found), an `HttpError` with
some status, or any other exception (not an `HttpError`). -/
inductive GetUserResult where
  | found
  | httpError (status : Nat)
  | otherExn (e : Nat)
deriving DecidableEq, Repr

/-- A Python-level outcome of `is_username_available`: a returned value
(`some true`, `some false`, or `none` for Python `None`), or a propagated
exception (identified by a code). -/
inductive PyReturn where
  | ret (v : Option Bool)
  | exn (e : Nat)
deriving DecidableEq, Repr

/-- `is_username_available` (lines 153-170): `try` the get-user call; normal
return means the user exists, so return `False`; an `HttpError` with status
404 returns `True`; an `HttpError` with any other status falls off the end of
the `except` block, so the function returns `None`; a non-`HttpError`
exception is not caught and propagates. -/
def is_username_available (getResult : GetUserResult) : PyReturn :=
  match getResult with
  | .found => .ret (some false)
  | .httpError status => if status == 404 then .ret (some true) else .ret none
  | .otherExn e => .exn e

/-- `_create_message` (lines 118-133): a MIME text message with the given
recipient, the session super-admin as sender, and the given subject and body. -/
def _create_message (adm : GoogleAdmin) (to_ subject message_text : String) : GmailMessage :=
  { to_ := to_, from_ := adm.sub_account, subject := subject, text := message_text }

/-- The welcome-mail body (lines 100-113), with the format placeholders
spliced in: `domain`, `given_name`, `username`, `password`, `email`. -/
def message_text (given_name domain username password email : String) : String :=
  "\n        Hello " ++ given_name ++
  ",\n\n        You have a new account at " ++ domain ++
  "\n        Account details:\n\n        Username\n        " ++ username ++
  "\n\n        Password\n        " ++ password ++
  "\n\n        Start using your new account by signing in at https://www.google.com/accounts/AccountChooser?Email="
  ++ email ++ "&continue=https://apps.google.com/user/hub\n        "

/-- The `for group in groups` loop (lines 89-96): for each group in order,
compose `group_key = group@primary_domain` and call `members().insert` with
the new account's email and role `MEMBER`.  The loop body has no exception
handling, so the first failing call stops the loop and propagates. -/
def group_loop (adm : GoogleAdmin) (env : Env) (email : String) :
    List String → List Action × Option HttpErr
  | [] => ([], none)
  | g :: gs =>
    let group_key := g ++ "@" ++ adm.primary_domain
    match env.insertMember group_key with
    | .ok =>
      let rest := group_loop adm env email gs
      (Action.insertMember group_key email "MEMBER" :: rest.1, rest.2)
    | .err e => ([Action.insertMember group_key email "MEMBER"], some e)

/-- The first yielded progress string (line 88). -/
def created_msg (groups : List String) : String :=
  "User created! Going to add them to the following groups now: " ++
    String.intercalate ", " groups

/-- The second yielded progress string (line 98). -/
def sending_msg : String :=
  "Sending them a welcome email to their personal address with login credentials to the new account."

/-- `create_user` (lines 60-116), fully consumed: the ordered trace of remote
calls and yields, and the outcome.  An exception from any `.execute()` call
propagates out of the generator immediately; there is no handler anywhere in
the function. -/
def create_user (adm : GoogleAdmin) (env : Env)
    (given_name family_name username personal_email job_title : String)
    (groups : List String) (rng : Nat → Nat) : List Action × Outcome :=
  let email := username ++ "@" ++ adm.primary_domain
  let emails : List EmailEntry :=
    [{ address := email, primary := some true, type := "work" },
     { address := personal_email, primary := none, type := "other" }]
  let orgs : List OrgEntry := [{ primary := true, title := job_title }]
  let password := _generate_password rng
  let body : UserBody :=
    { name := { givenName := given_name, familyName := family_name },
      password := password,
      changePasswordAtNextLogin := true,
      primaryEmail := email,
      emails := emails,
      organizations := orgs }
  match env.insertUser with
  | .err e => ([Action.insertUser body], .raised e)
  | .ok =>
    let pre := [Action.insertUser body, Action.progress (created_msg groups)]
    let gl := group_loop adm env email groups
    match gl.2 with
    | some e => (pre ++ gl.1, .raised e)
    | none =>
      let mtext := message_text given_name adm.primary_domain username password email
      let msg := _create_message adm personal_email
        ("Welcome to " ++ adm.primary_domain) mtext
      let post := [Action.progress sending_msg, Action.send "me" msg]
      match env.send with
      | .ok => (pre ++ gl.1 ++ post, .success)
      | .err e => (pre ++ gl.1 ++ post, .raised e)

/-! ## Shared example instances (used by counterexamples and witnesses) -/

/-- The session of the spec's end-to-end scenario. -/
def exAdm : GoogleAdmin :=
  { sub_account := "admin@corp.example", primary_domain := "corp.example" }

/-- Environment in which every remote call succeeds. -/
def okEnv : Env :=
  { insertUser := .ok, insertMember := fun _ => .ok, send := .ok }

/-- Environment in which the member insert for `eng@corp.example` fails with
HTTP 500 and every other call succeeds. -/
def failEngEnv : Env :=
  { insertUser := .ok,
    insertMember := fun k => if k == "eng@corp.example" then .err ⟨500⟩ else .ok,
    send := .ok }

/-- Environment in which the user insert fails with HTTP 409 (conflict). -/
def failCreateEnv : Env :=
  { insertUser := .err ⟨409⟩, insertMember := fun _ => .ok, send := .ok }

/-- Environment in which only the Gmail send fails (HTTP 503). -/
def failSendEnv : Env :=
  { insertUser := .ok, insertMember := fun _ => .ok, send := .err ⟨503⟩ }

/-- A fixed random stream for concrete runs. -/
def exRng : Nat → Nat := fun _ => 0

/-! ## Helper notions and lemmas -/

/-- `t` occurs as a contiguous substring of `s`. -/
def strContains (s t : String) : Prop :=
  ∃ p q, p ++ t ++ q = s

/-- An element drawn from a nonempty list at a modded index is in the list. -/
theorem getD_mod_mem (l : List Char) (d : Char) (n : Nat) (hl : l ≠ []) :
    l.getD (n % l.length) d ∈ l := by
  have hpos : 0 < l.length := List.length_pos.mpr hl
  have h : n % l.length < l.length := Nat.mod_lt _ hpos
  rw [List.getD_eq_getElem l d h]
  exact List.getElem_mem h

/-- When every group key succeeds, the group loop performs one member insert
per group, in request order, and reports no exception. -/
theorem group_loop_all_ok (adm : GoogleAdmin) (env : Env) (email : String)
    (gs : List String)
    (h : ∀ g ∈ gs, env.insertMember (g ++ "@" ++ adm.primary_domain) = .ok) :
    group_loop adm env email gs =
      (gs.map fun g =>
        Action.insertMember (g ++ "@" ++ adm.primary_domain) email "MEMBER", none) := by
  induction gs with
  | nil => rfl
  | cons g gs ih =>
    have hg := h g (List.mem_cons_self g gs)
    have hrest : ∀ x ∈ gs, env.insertMember (x ++ "@" ++ adm.primary_domain) = .ok :=
      fun x hx => h x (List.mem_cons_of_mem g hx)
    simp only [group_loop, hg, ih hrest, List.map_cons]

/-- When every key in a prefix succeeds and the next key fails, the group loop
performs the prefix's member inserts, attempts the failing key, and stops
with that exception: no later group is attempted. -/
theorem group_loop_first_failure (adm : GoogleAdmin) (env : Env) (email : String)
    (gs1 gs2 : List String) (g : String) (e : HttpErr)
    (hok : ∀ x ∈ gs1, env.insertMember (x ++ "@" ++ adm.primary_domain) = .ok)
    (hfail : env.insertMember (g ++ "@" ++ adm.primary_domain) = .err e) :
    group_loop adm env email (gs1 ++ g :: gs2) =
      ((gs1.map fun x =>
          Action.insertMember (x ++ "@" ++ adm.primary_domain) email "MEMBER") ++
        [Action.insertMember (g ++ "@" ++ adm.primary_domain) email "MEMBER"],
       some e) := by
  induction gs1 with
  | nil => simp only [List.nil_append, group_loop, hfail, List.map_nil]
  | cons x xs ih =>
    have hx := hok x (List.mem_cons_self x xs)
    have hrest : ∀ y ∈ xs, env.insertMember (y ++ "@" ++ adm.primary_domain) = .ok :=
      fun y hy => hok y (List.mem_cons_of_mem x hy)
    simp only [List.cons_append, group_loop, hx, List.append_eq, ih hrest, List.map_cons]

/-- Every action the group loop emits is a member insert whose key comes from
the group list, with the account email and role `MEMBER`. -/
theorem group_loop_actions_shape (adm : GoogleAdmin) (env : Env) (email : String)
    (gs : List String) (a : Action) (ha : a ∈ (group_loop adm env email gs).1) :
    ∃ g ∈ gs, a = Action.insertMember (g ++ "@" ++ adm.primary_domain) email "MEMBER" := by
  induction gs with
  | nil => simp [group_loop] at ha
  | cons g gs ih =>
    simp only [group_loop] at ha
    cases hg : env.insertMember (g ++ "@" ++ adm.primary_domain) with
    | ok =>
      rw [hg] at ha
      simp only [List.mem_cons] at ha
      rcases ha with rfl | ha
      · exact ⟨g, List.mem_cons_self g gs, rfl⟩
      · obtain ⟨x, hx, hax⟩ := ih ha
        exact ⟨x, List.mem_cons_of_mem g hx, hax⟩
    | err e =>
      rw [hg] at ha
      simp only [List.mem_singleton] at ha
      exact ⟨g, List.mem_cons_self g gs, ha⟩

/-- The user insert body composed by `create_user` (lines 71-75 and 79-85),
as a function of the request and the generated password. -/
def request_body (adm : GoogleAdmin) (gn fn un pe jt password : String) : UserBody :=
  { name := { givenName := gn, familyName := fn },
    password := password,
    changePasswordAtNextLogin := true,
    primaryEmail := un ++ "@" ++ adm.primary_domain,
    emails := [{ address := un ++ "@" ++ adm.primary_domain, primary := some true, type := "work" },
               { address := pe, primary := none, type := "other" }],
    organizations := [{ primary := true, title := jt }] }

/-- The welcome message composed at lines 100-114. -/
def welcome_message (adm : GoogleAdmin) (gn un pe password : String) : GmailMessage :=
  _create_message adm pe ("Welcome to " ++ adm.primary_domain)
    (message_text gn adm.primary_domain un password (un ++ "@" ++ adm.primary_domain))

/-- Characterization: when the user insert fails, the run is exactly the
failing insert call and the propagated exception. -/
theorem create_user_err_eq (adm : GoogleAdmin) (env : Env)
    (gn fn un pe jt : String) (groups : List String) (rng : Nat → Nat) (e : HttpErr)
    (h : env.insertUser = .err e) :
    create_user adm env gn fn un pe jt groups rng =
      ([Action.insertUser (request_body adm gn fn un pe jt (_generate_password rng))],
       .raised e) := by
  simp only [create_user, h, request_body]

/-- Characterization: when the user insert succeeds and the group loop stops
with an exception, the run is the insert, the created-progress event and the
loop's actions, with the exception propagated; the notification step never
appears. -/
theorem create_user_group_abort_eq (adm : GoogleAdmin) (env : Env)
    (gn fn un pe jt : String) (groups : List String) (rng : Nat → Nat)
    (acts : List Action) (e : HttpErr)
    (h : env.insertUser = .ok)
    (hgl : group_loop adm env (un ++ "@" ++ adm.primary_domain) groups = (acts, some e)) :
    create_user adm env gn fn un pe jt groups rng =
      (Action.insertUser (request_body adm gn fn un pe jt (_generate_password rng)) ::
        Action.progress (created_msg groups) :: acts,
       .raised e) := by
  simp only [create_user, h, hgl, request_body, List.cons_append, List.nil_append]

/-- Characterization: when the user insert and every group call succeed, the
trace is the insert, the created-progress event, one member insert per group,
the sending-progress event and the send call — whatever the send outcome. -/
theorem create_user_groups_ok_trace (adm : GoogleAdmin) (env : Env)
    (gn fn un pe jt : String) (groups : List String) (rng : Nat → Nat)
    (acts : List Action)
    (h : env.insertUser = .ok)
    (hgl : group_loop adm env (un ++ "@" ++ adm.primary_domain) groups = (acts, none)) :
    (create_user adm env gn fn un pe jt groups rng).1 =
      Action.insertUser (request_body adm gn fn un pe jt (_generate_password rng)) ::
        Action.progress (created_msg groups) ::
        (acts ++ [Action.progress sending_msg,
          Action.send "me" (welcome_message adm gn un pe (_generate_password rng))]) := by
  cases hs : env.send with
  | ok => simp only [create_user, h, hgl, hs, request_body, welcome_message, _create_message,
      List.cons_append, List.nil_append]
  | err e => simp only [create_user, h, hgl, hs, request_body, welcome_message, _create_message,
      List.cons_append, List.nil_append]

/-- Characterization: with all groups succeeding, the run's outcome is the
send call's outcome. -/
theorem create_user_groups_ok_outcome (adm : GoogleAdmin) (env : Env)
    (gn fn un pe jt : String) (groups : List String) (rng : Nat → Nat)
    (acts : List Action)
    (h : env.insertUser = .ok)
    (hgl : group_loop adm env (un ++ "@" ++ adm.primary_domain) groups = (acts, none)) :
    (create_user adm env gn fn un pe jt groups rng).2 =
      (match env.send with
       | .ok => Outcome.success
       | .err e => Outcome.raised e) := by
  cases hs : env.send with
  | ok => simp only [create_user, h, hgl, hs]
  | err e => simp only [create_user, h, hgl, hs]

/-! ## C4: availability check and non-404 failures -/

/-- C4: the claim says any non-not-found failure of the get-user call
propagates to the caller.  The code catches every `HttpError` and only
handles status 404; a non-404 `HttpError` falls off the end of the function,
so `is_username_available` returns Python `None` instead of propagating.
The found / not-found cases do behave as claimed. -/
theorem c4_non404_swallowed_not_propagated :
    is_username_available (GetUserResult.httpError 500) = PyReturn.ret none ∧
    (∀ e, is_username_available (GetUserResult.httpError 500) ≠ PyReturn.exn e) ∧
    is_username_available GetUserResult.found = PyReturn.ret (some false) ∧
    is_username_available (GetUserResult.httpError 404) = PyReturn.ret (some true) ∧
    (∀ e, is_username_available (GetUserResult.otherExn e) = PyReturn.exn e) := by
  refine ⟨rfl, ?_, rfl, rfl, fun e => rfl⟩
  intro e h
  simp [is_username_available] at h

/-! ## C5: primary-domain resolution with no primary flagged -/

/-- C5: the claim says resolving the primary domain fails with an
`UpstreamError` when no domain is flagged primary.  The code's `for` loop
simply falls off the end of the function and returns Python `None` — there
is no error raised.  When a domain is flagged primary its name is returned. -/
theorem c5_no_primary_returns_none :
    _get_primary_domain [⟨"secondary.example", false⟩] = none ∧
    _get_primary_domain
      [⟨"secondary.example", false⟩, ⟨"corp.example", true⟩] = some "corp.example" := by
  exact ⟨rfl, rfl⟩

/-! ## C9: password generator length and alphabet -/

/-- C9: every generated password has length exactly 18 and draws every
character from `PASSWORD_CHARACTERS` (ASCII letters, punctuation, digits). -/
theorem c9_password_length_and_alphabet (rng : Nat → Nat) :
    (_generate_password rng).length = 18 ∧
    ∀ c ∈ (_generate_password rng).data, c ∈ PASSWORD_CHARACTERS.data := by
  constructor
  · show ((List.range PASSWORD_LENGTH).map _).length = 18
    simp [PASSWORD_LENGTH]
  · intro c hc
    simp only [_generate_password, String.mk, List.mem_map] at hc
    obtain ⟨i, _, rfl⟩ := hc
    exact getD_mod_mem _ _ _ (by decide)

/-! ## C2: create-user failure short-circuits the workflow -/

/-- C2: if the directory user insert fails, the run makes no member insert
call and no send call at all, and the exception propagates (the entire
workflow aborts). -/
theorem c2_create_failure_short_circuit (adm : GoogleAdmin) (env : Env)
    (gn fn un pe jt : String) (groups : List String) (rng : Nat → Nat) (e : HttpErr)
    (h : env.insertUser = .err e) :
    (∀ k m r, Action.insertMember k m r ∉ (create_user adm env gn fn un pe jt groups rng).1) ∧
    (∀ uid m, Action.send uid m ∉ (create_user adm env gn fn un pe jt groups rng).1) ∧
    (create_user adm env gn fn un pe jt groups rng).2 = .raised e := by
  have he := create_user_err_eq adm env gn fn un pe jt groups rng e h
  refine ⟨?_, ?_, by rw [he]⟩ <;> intros <;> rw [he] <;> simp

/-- C2 witness: concrete run in which the user insert fails with HTTP 409. -/
theorem c2_witness :
    (∀ k m r, Action.insertMember k m r ∉
      (create_user exAdm failCreateEnv "Ada" "Lovelace" "ada" "ada@example.com"
        "Engineer" ["eng", "all-staff"] exRng).1) ∧
    (∀ uid m, Action.send uid m ∉
      (create_user exAdm failCreateEnv "Ada" "Lovelace" "ada" "ada@example.com"
        "Engineer" ["eng", "all-staff"] exRng).1) ∧
    (create_user exAdm failCreateEnv "Ada" "Lovelace" "ada" "ada@example.com"
      "Engineer" ["eng", "all-staff"] exRng).2 = .raised ⟨409⟩ :=
  c2_create_failure_short_circuit exAdm failCreateEnv "Ada" "Lovelace" "ada"
    "ada@example.com" "Engineer" ["eng", "all-staff"] exRng ⟨409⟩ rfl

/-! ## C6: content of the account passed to the user insert -/

/-- C6: the first action of every run is the user insert, and the body it
carries has primary email `username@primary_domain`, the personal email as a
secondary non-primary address, the given and family names, the job title as
the primary organization title, the freshly generated password, and the
force-password-change flag set. -/
theorem c6_insert_body_fields (adm : GoogleAdmin) (env : Env)
    (gn fn un pe jt : String) (groups : List String) (rng : Nat → Nat) :
    ((create_user adm env gn fn un pe jt groups rng).1).head? = some (Action.insertUser
      { name := { givenName := gn, familyName := fn },
        password := _generate_password rng,
        changePasswordAtNextLogin := true,
        primaryEmail := un ++ "@" ++ adm.primary_domain,
        emails := [{ address := un ++ "@" ++ adm.primary_domain,
                     primary := some true, type := "work" },
                   { address := pe, primary := none, type := "other" }],
        organizations := [{ primary := true, title := jt }] }) := by
  cases h : env.insertUser with
  | err e => rw [create_user_err_eq adm env gn fn un pe jt groups rng e h]; rfl
  | ok =>
    rcases hgl : group_loop adm env (un ++ "@" ++ adm.primary_domain) groups with ⟨acts, res⟩
    cases res with
    | some e =>
      rw [show (create_user adm env gn fn un pe jt groups rng).1 =
        (create_user adm env gn fn un pe jt groups rng).1 from rfl,
        (create_user_group_abort_eq adm env gn fn un pe jt groups rng acts e h hgl)]
      rfl
    | none =>
      rw [create_user_groups_ok_trace adm env gn fn un pe jt groups rng acts h hgl]
      rfl

/-! ## C3: ordering of progress events and remote calls -/

/-- C3: whenever the user insert succeeds, the trace starts with the insert
call followed immediately by the account-created progress event; then come
only member insert calls; and the trace either stops there (a group call
failed) or ends with the notification progress event followed by the send
call. -/
theorem c3_event_ordering (adm : GoogleAdmin) (env : Env)
    (gn fn un pe jt : String) (groups : List String) (rng : Nat → Nat)
    (h : env.insertUser = .ok) :
    ∃ body memberActs rest,
      (create_user adm env gn fn un pe jt groups rng).1 =
        Action.insertUser body :: Action.progress (created_msg groups) ::
          (memberActs ++ rest) ∧
      (∀ a ∈ memberActs, ∃ k m, a = Action.insertMember k m "MEMBER") ∧
      (rest = [] ∨ ∃ m, rest = [Action.progress sending_msg, Action.send "me" m]) := by
  rcases hgl : group_loop adm env (un ++ "@" ++ adm.primary_domain) groups with ⟨acts, res⟩
  have hshape : ∀ a ∈ acts, ∃ k m, a = Action.insertMember k m "MEMBER" := by
    intro a ha
    have := group_loop_actions_shape adm env (un ++ "@" ++ adm.primary_domain) groups a
      (by rw [hgl]; exact ha)
    obtain ⟨g, _, rfl⟩ := this
    exact ⟨_, _, rfl⟩
  cases res with
  | some e =>
    refine ⟨request_body adm gn fn un pe jt (_generate_password rng), acts, [],
      ?_, hshape, Or.inl rfl⟩
    rw [(create_user_group_abort_eq adm env gn fn un pe jt groups rng acts e h hgl :
      create_user adm env gn fn un pe jt groups rng = _)]
    simp
  | none =>
    refine ⟨request_body adm gn fn un pe jt (_generate_password rng), acts,
      [Action.progress sending_msg,
       Action.send "me" (welcome_message adm gn un pe (_generate_password rng))],
      ?_, hshape, Or.inr ⟨_, rfl⟩⟩
    rw [create_user_groups_ok_trace adm env gn fn un pe jt groups rng acts h hgl]

/-- C3 witness: concrete all-success run. -/
theorem c3_witness :
    ∃ body memberActs rest,
      (create_user exAdm okEnv "Ada" "Lovelace" "ada" "ada@example.com"
        "Engineer" ["eng", "all-staff"] exRng).1 =
        Action.insertUser body ::
          Action.progress (created_msg ["eng", "all-staff"]) :: (memberActs ++ rest) ∧
      (∀ a ∈ memberActs, ∃ k m, a = Action.insertMember k m "MEMBER") ∧
      (rest = [] ∨ ∃ m, rest = [Action.progress sending_msg, Action.send "me" m]) :=
  c3_event_ordering exAdm okEnv "Ada" "Lovelace" "ada" "ada@example.com"
    "Engineer" ["eng", "all-staff"] exRng rfl

/-- Exhibiting a decomposition proves substring containment. -/
theorem strContains_of_eq (s a t b : String) (h : s = a ++ (t ++ b)) : strContains s t :=
  ⟨a, b, by rw [h, String.append_assoc]⟩

/-- The welcome body contains the recipient's given name. -/
theorem message_text_contains_given (g d u pw e : String) :
    strContains (message_text g d u pw e) g :=
  strContains_of_eq _ "\n        Hello " g
    (",\n\n        You have a new account at " ++ d ++
      "\n        Account details:\n\n        Username\n        " ++ u ++
      "\n\n        Password\n        " ++ pw ++
      "\n\n        Start using your new account by signing in at https://www.google.com/accounts/AccountChooser?Email="
      ++ e ++ "&continue=https://apps.google.com/user/hub\n        ")
    (by simp [message_text, String.append_assoc])

/-- The welcome body contains the primary domain. -/
theorem message_text_contains_domain (g d u pw e : String) :
    strContains (message_text g d u pw e) d :=
  strContains_of_eq _
    ("\n        Hello " ++ g ++ ",\n\n        You have a new account at ") d
    ("\n        Account details:\n\n        Username\n        " ++ u ++
      "\n\n        Password\n        " ++ pw ++
      "\n\n        Start using your new account by signing in at https://www.google.com/accounts/AccountChooser?Email="
      ++ e ++ "&continue=https://apps.google.com/user/hub\n        ")
    (by simp [message_text, String.append_assoc])

/-- The welcome body contains the username. -/
theorem message_text_contains_username (g d u pw e : String) :
    strContains (message_text g d u pw e) u :=
  strContains_of_eq _
    ("\n        Hello " ++ g ++ ",\n\n        You have a new account at " ++ d ++
      "\n        Account details:\n\n        Username\n        ") u
    ("\n\n        Password\n        " ++ pw ++
      "\n\n        Start using your new account by signing in at https://www.google.com/accounts/AccountChooser?Email="
      ++ e ++ "&continue=https://apps.google.com/user/hub\n        ")
    (by simp [message_text, String.append_assoc])

/-- The welcome body contains the plaintext password. -/
theorem message_text_contains_password (g d u pw e : String) :
    strContains (message_text g d u pw e) pw :=
  strContains_of_eq _
    ("\n        Hello " ++ g ++ ",\n\n        You have a new account at " ++ d ++
      "\n        Account details:\n\n        Username\n        " ++ u ++
      "\n\n        Password\n        ") pw
    ("\n\n        Start using your new account by signing in at https://www.google.com/accounts/AccountChooser?Email="
      ++ e ++ "&continue=https://apps.google.com/user/hub\n        ")
    (by simp [message_text, String.append_assoc])

/-- The welcome body contains the composed primary email. -/
theorem message_text_contains_email (g d u pw e : String) :
    strContains (message_text g d u pw e) e :=
  strContains_of_eq _
    ("\n        Hello " ++ g ++ ",\n\n        You have a new account at " ++ d ++
      "\n        Account details:\n\n        Username\n        " ++ u ++
      "\n\n        Password\n        " ++ pw ++
      "\n\n        Start using your new account by signing in at https://www.google.com/accounts/AccountChooser?Email=")
    e "&continue=https://apps.google.com/user/hub\n        "
    (by simp [message_text, String.append_assoc])

/-! ## C7: content and addressing of the welcome email -/

/-- C7: whenever the run reaches the notification step (user insert and all
group calls succeed), the trace contains a send of a message as the
authenticated user (`"me"`), addressed to the personal email, from the
session super-admin, whose body contains the given name, the primary domain,
the username, the same plaintext password as in the created account's body,
and the composed primary email. -/
theorem c7_welcome_email (adm : GoogleAdmin) (env : Env)
    (gn fn un pe jt : String) (groups : List String) (rng : Nat → Nat)
    (hc : env.insertUser = .ok)
    (hg : ∀ g ∈ groups, env.insertMember (g ++ "@" ++ adm.primary_domain) = .ok) :
    ∃ m body,
      Action.send "me" m ∈ (create_user adm env gn fn un pe jt groups rng).1 ∧
      Action.insertUser body ∈ (create_user adm env gn fn un pe jt groups rng).1 ∧
      m.to_ = pe ∧
      m.from_ = adm.sub_account ∧
      body.password = _generate_password rng ∧
      strContains m.text gn ∧
      strContains m.text adm.primary_domain ∧
      strContains m.text un ∧
      strContains m.text body.password ∧
      strContains m.text (un ++ "@" ++ adm.primary_domain) := by
  have hgl := group_loop_all_ok adm env (un ++ "@" ++ adm.primary_domain) groups hg
  have ht := create_user_groups_ok_trace adm env gn fn un pe jt groups rng _ hc hgl
  refine ⟨welcome_message adm gn un pe (_generate_password rng),
    request_body adm gn fn un pe jt (_generate_password rng), ?_, ?_, rfl, rfl, rfl,
    message_text_contains_given _ _ _ _ _,
    message_text_contains_domain _ _ _ _ _,
    message_text_contains_username _ _ _ _ _,
    message_text_contains_password _ _ _ _ _,
    message_text_contains_email _ _ _ _ _⟩
  · rw [ht]; simp
  · rw [ht]; simp

/-- C7 witness: concrete all-success run. -/
theorem c7_witness :
    ∃ m body,
      Action.send "me" m ∈ (create_user exAdm okEnv "Ada" "Lovelace" "ada"
        "ada@example.com" "Engineer" ["eng", "all-staff"] exRng).1 ∧
      Action.insertUser body ∈ (create_user exAdm okEnv "Ada" "Lovelace" "ada"
        "ada@example.com" "Engineer" ["eng", "all-staff"] exRng).1 ∧
      m.to_ = "ada@example.com" ∧
      m.from_ = exAdm.sub_account ∧
      body.password = _generate_password exRng ∧
      strContains m.text "Ada" ∧
      strContains m.text exAdm.primary_domain ∧
      strContains m.text "ada" ∧
      strContains m.text body.password ∧
      strContains m.text ("ada" ++ "@" ++ exAdm.primary_domain) :=
  c7_welcome_email exAdm okEnv "Ada" "Lovelace" "ada" "ada@example.com"
    "Engineer" ["eng", "all-staff"] exRng rfl (fun _ _ => rfl)

/-- No run of `create_user`, under any environment, ever emits a user delete
or a group-member removal: the function contains no rollback logic. -/
theorem create_user_no_rollback_action (adm : GoogleAdmin) (env : Env)
    (gn fn un pe jt : String) (groups : List String) (rng : Nat → Nat) (a : Action)
    (ha : a ∈ (create_user adm env gn fn un pe jt groups rng).1) :
    (∀ k, a ≠ Action.deleteUser k) ∧ (∀ k m, a ≠ Action.removeMember k m) := by
  cases hc : env.insertUser with
  | err e =>
    rw [show create_user adm env gn fn un pe jt groups rng = _ from
      create_user_err_eq adm env gn fn un pe jt groups rng e hc] at ha
    simp only [List.mem_singleton] at ha
    subst ha
    exact ⟨fun k => by simp, fun k m => by simp⟩
  | ok =>
    rcases hgl : group_loop adm env (un ++ "@" ++ adm.primary_domain) groups with ⟨acts, res⟩
    have hacts : ∀ b ∈ acts, (∀ k, b ≠ Action.deleteUser k) ∧
        (∀ k m, b ≠ Action.removeMember k m) := by
      intro b hb
      obtain ⟨g, _, rfl⟩ := group_loop_actions_shape adm env
        (un ++ "@" ++ adm.primary_domain) groups b (by rw [hgl]; exact hb)
      exact ⟨fun k => by simp, fun k m => by simp⟩
    cases res with
    | some e =>
      rw [show create_user adm env gn fn un pe jt groups rng = _ from
        create_user_group_abort_eq adm env gn fn un pe jt groups rng acts e hc hgl] at ha
      simp only [List.mem_cons] at ha
      rcases ha with rfl | rfl | ha
      · exact ⟨fun k => by simp, fun k m => by simp⟩
      · exact ⟨fun k => by simp, fun k m => by simp⟩
      · exact hacts a ha
    | none =>
      rw [create_user_groups_ok_trace adm env gn fn un pe jt groups rng acts hc hgl] at ha
      simp only [List.mem_cons, List.mem_append] at ha
      rcases ha with rfl | rfl | ha | rfl | rfl | h
      · exact ⟨fun k => by simp, fun k m => by simp⟩
      · exact ⟨fun k => by simp, fun k m => by simp⟩
      · exact hacts a ha
      · exact ⟨fun k => by simp, fun k m => by simp⟩
      · exact ⟨fun k => by simp, fun k m => by simp⟩
      · exact absurd h (by simp)

/-! ## C8: a send failure reverses nothing -/

/-- C8: when the user insert and all group calls succeed and the send fails,
the exception propagates as the outcome, but the trace still contains the
user insert and one member insert per group, and contains no delete or
removal call: nothing established earlier is reversed. -/
theorem c8_send_failure_no_rollback (adm : GoogleAdmin) (env : Env)
    (gn fn un pe jt : String) (groups : List String) (rng : Nat → Nat) (e : HttpErr)
    (hc : env.insertUser = .ok)
    (hg : ∀ g ∈ groups, env.insertMember (g ++ "@" ++ adm.primary_domain) = .ok)
    (hs : env.send = .err e) :
    (∀ k, Action.deleteUser k ∉ (create_user adm env gn fn un pe jt groups rng).1) ∧
    (∀ k m, Action.removeMember k m ∉ (create_user adm env gn fn un pe jt groups rng).1) ∧
    Action.insertUser (request_body adm gn fn un pe jt (_generate_password rng)) ∈
      (create_user adm env gn fn un pe jt groups rng).1 ∧
    (∀ g ∈ groups, Action.insertMember (g ++ "@" ++ adm.primary_domain)
      (un ++ "@" ++ adm.primary_domain) "MEMBER" ∈
        (create_user adm env gn fn un pe jt groups rng).1) ∧
    (create_user adm env gn fn un pe jt groups rng).2 = .raised e := by
  have hgl := group_loop_all_ok adm env (un ++ "@" ++ adm.primary_domain) groups hg
  have ht := create_user_groups_ok_trace adm env gn fn un pe jt groups rng _ hc hgl
  refine ⟨?_, ?_, ?_, ?_, ?_⟩
  · intro k hmem
    exact (create_user_no_rollback_action adm env gn fn un pe jt groups rng _ hmem).1 k rfl
  · intro k m hmem
    exact (create_user_no_rollback_action adm env gn fn un pe jt groups rng _ hmem).2 k m rfl
  · rw [ht]; simp
  · intro g hgmem
    rw [ht]
    refine List.mem_cons_of_mem _ (List.mem_cons_of_mem _ (List.mem_append_left _ ?_))
    exact List.mem_map_of_mem _ hgmem
  · rw [create_user_groups_ok_outcome adm env gn fn un pe jt groups rng _ hc hgl, hs]

/-- C8 witness: concrete run in which only the send fails (HTTP 503). -/
theorem c8_witness :
    (∀ k, Action.deleteUser k ∉ (create_user exAdm failSendEnv "Ada" "Lovelace" "ada"
      "ada@example.com" "Engineer" ["eng", "all-staff"] exRng).1) ∧
    (∀ k m, Action.removeMember k m ∉ (create_user exAdm failSendEnv "Ada" "Lovelace" "ada"
      "ada@example.com" "Engineer" ["eng", "all-staff"] exRng).1) ∧
    Action.insertUser (request_body exAdm "Ada" "Lovelace" "ada" "ada@example.com"
      "Engineer" (_generate_password exRng)) ∈
      (create_user exAdm failSendEnv "Ada" "Lovelace" "ada" "ada@example.com"
        "Engineer" ["eng", "all-staff"] exRng).1 ∧
    (∀ g ∈ ["eng", "all-staff"], Action.insertMember (g ++ "@" ++ exAdm.primary_domain)
      ("ada" ++ "@" ++ exAdm.primary_domain) "MEMBER" ∈
        (create_user exAdm failSendEnv "Ada" "Lovelace" "ada" "ada@example.com"
          "Engineer" ["eng", "all-staff"] exRng).1) ∧
    (create_user exAdm failSendEnv "Ada" "Lovelace" "ada" "ada@example.com"
      "Engineer" ["eng", "all-staff"] exRng).2 = .raised ⟨503⟩ :=
  c8_send_failure_no_rollback exAdm failSendEnv "Ada" "Lovelace" "ada" "ada@example.com"
    "Engineer" ["eng", "all-staff"] exRng ⟨503⟩ rfl (fun _ _ => rfl) rfl

/-! ## C10: shape of every group-membership call -/

/-- C10: every member insert call in any run uses a group key composed of a
group from the request's list and the session primary domain (the account's
own domain), adds the new account's primary email, and uses role `MEMBER`. -/
theorem c10_member_call_shape (adm : GoogleAdmin) (env : Env)
    (gn fn un pe jt : String) (groups : List String) (rng : Nat → Nat)
    (k m r : String)
    (h : Action.insertMember k m r ∈ (create_user adm env gn fn un pe jt groups rng).1) :
    ∃ g ∈ groups, k = g ++ "@" ++ adm.primary_domain ∧
      m = un ++ "@" ++ adm.primary_domain ∧ r = "MEMBER" := by
  cases hc : env.insertUser with
  | err e =>
    rw [show create_user adm env gn fn un pe jt groups rng = _ from
      create_user_err_eq adm env gn fn un pe jt groups rng e hc] at h
    simp at h
  | ok =>
    rcases hgl : group_loop adm env (un ++ "@" ++ adm.primary_domain) groups with ⟨acts, res⟩
    have hacts : Action.insertMember k m r ∈ acts →
        ∃ g ∈ groups, k = g ++ "@" ++ adm.primary_domain ∧
          m = un ++ "@" ++ adm.primary_domain ∧ r = "MEMBER" := by
      intro hmem
      obtain ⟨g, hgmem, heq⟩ := group_loop_actions_shape adm env
        (un ++ "@" ++ adm.primary_domain) groups _ (by rw [hgl]; exact hmem)
      rw [Action.insertMember.injEq] at heq
      exact ⟨g, hgmem, heq.1, heq.2.1, heq.2.2⟩
    cases res with
    | some e =>
      rw [show create_user adm env gn fn un pe jt groups rng = _ from
        create_user_group_abort_eq adm env gn fn un pe jt groups rng acts e hc hgl] at h
      simp only [List.mem_cons] at h
      rcases h with h | h | h
      · exact absurd h (by simp)
      · exact absurd h (by simp)
      · exact hacts h
    | none =>
      rw [create_user_groups_ok_trace adm env gn fn un pe jt groups rng acts hc hgl] at h
      simp only [List.mem_cons, List.mem_append] at h
      rcases h with h | h | h | h | h | h
      · exact absurd h (by simp)
      · exact absurd h (by simp)
      · exact hacts h
      · exact absurd h (by simp)
      · exact absurd h (by simp)
      · exact absurd h (by simp)

/-- C10 witness: the first member call of the concrete all-success run. -/
theorem c10_witness :
    ∃ g ∈ ["eng", "all-staff"], "eng@corp.example" = g ++ "@" ++ exAdm.primary_domain ∧
      "ada@corp.example" = "ada" ++ "@" ++ exAdm.primary_domain ∧
      ("MEMBER" : String) = "MEMBER" :=
  c10_member_call_shape exAdm okEnv "Ada" "Lovelace" "ada" "ada@example.com"
    "Engineer" ["eng", "all-staff"] exRng "eng@corp.example" "ada@corp.example" "MEMBER"
    (by
      rw [create_user_groups_ok_trace exAdm okEnv "Ada" "Lovelace" "ada" "ada@example.com"
        "Engineer" ["eng", "all-staff"] exRng _ rfl
        (group_loop_all_ok exAdm okEnv ("ada" ++ "@" ++ exAdm.primary_domain)
          ["eng", "all-staff"] (fun _ _ => rfl))]
      simp only [List.map_cons, List.map_nil, List.mem_cons, List.mem_append]
      exact Or.inr (Or.inr (Or.inl (by decide))))

/-! ## C1: behaviour when a group-enrollment call fails -/

/-- The concrete run in which account creation succeeds and the first group's
member insert (`eng@corp.example`) fails with HTTP 500. -/
def c1run : List Action × Outcome :=
  create_user exAdm failEngEnv "Ada" "Lovelace" "ada" "ada@example.com"
    "Engineer" ["eng", "all-staff"] exRng

/-- C1 counterexample: in `c1run` the account creation succeeds and the call
for the first group fails, yet the remaining group (`all-staff`) is never
attempted and no send call is made — the claimed continue-on-error behaviour
does not hold, because the loop body has no exception handling. -/
theorem c1_counterexample :
    failEngEnv.insertUser = CallResult.ok ∧
    failEngEnv.insertMember ("eng" ++ "@" ++ exAdm.primary_domain) = CallResult.err ⟨500⟩ ∧
    "all-staff" ∈ ["eng", "all-staff"] ∧
    Action.insertMember ("all-staff" ++ "@" ++ exAdm.primary_domain)
      ("ada" ++ "@" ++ exAdm.primary_domain) "MEMBER" ∉ c1run.1 ∧
    (∀ uid m, Action.send uid m ∉ c1run.1) := by
  have ht : c1run.1 =
      Action.insertUser (request_body exAdm "Ada" "Lovelace" "ada" "ada@example.com"
        "Engineer" (_generate_password exRng)) ::
      Action.progress (created_msg ["eng", "all-staff"]) ::
      [Action.insertMember ("eng" ++ "@" ++ exAdm.primary_domain)
        ("ada" ++ "@" ++ exAdm.primary_domain) "MEMBER"] := by
    show (create_user exAdm failEngEnv "Ada" "Lovelace" "ada" "ada@example.com"
      "Engineer" ["eng", "all-staff"] exRng).1 = _
    rw [show create_user exAdm failEngEnv "Ada" "Lovelace" "ada" "ada@example.com"
        "Engineer" ["eng", "all-staff"] exRng = _ from
      create_user_group_abort_eq exAdm failEngEnv "Ada" "Lovelace" "ada" "ada@example.com"
        "Engineer" ["eng", "all-staff"] exRng
        [Action.insertMember ("eng" ++ "@" ++ exAdm.primary_domain)
          ("ada" ++ "@" ++ exAdm.primary_domain) "MEMBER"] ⟨500⟩ rfl
        (group_loop_first_failure exAdm failEngEnv ("ada" ++ "@" ++ exAdm.primary_domain)
          [] ["all-staff"] "eng" ⟨500⟩ (fun x hx => absurd hx (List.not_mem_nil x)) rfl)]
  refine ⟨rfl, rfl, by simp, ?_, ?_⟩
  · rw [ht]
    simp only [List.mem_cons, List.not_mem_nil, or_false]
    decide
  · intro uid m
    rw [ht]
    simp

/-- C1 amended: when account creation succeeds, the group loop proceeds in
request order only until the first failing call; that exception propagates
out of the workflow, so no later group is attempted and the notification
step is never reached, while the account insert and the prior successful
group calls remain in the trace and no delete or removal call is ever made. -/
theorem c1_amended_group_failure_aborts (adm : GoogleAdmin) (env : Env)
    (gn fn un pe jt : String) (gs1 gs2 : List String) (g : String)
    (rng : Nat → Nat) (e : HttpErr)
    (hc : env.insertUser = .ok)
    (hok : ∀ x ∈ gs1, env.insertMember (x ++ "@" ++ adm.primary_domain) = .ok)
    (hfail : env.insertMember (g ++ "@" ++ adm.primary_domain) = .err e) :
    create_user adm env gn fn un pe jt (gs1 ++ g :: gs2) rng =
      (Action.insertUser (request_body adm gn fn un pe jt (_generate_password rng)) ::
        Action.progress (created_msg (gs1 ++ g :: gs2)) ::
        ((gs1.map fun x => Action.insertMember (x ++ "@" ++ adm.primary_domain)
            (un ++ "@" ++ adm.primary_domain) "MEMBER") ++
          [Action.insertMember (g ++ "@" ++ adm.primary_domain)
            (un ++ "@" ++ adm.primary_domain) "MEMBER"]),
       .raised e) :=
  create_user_group_abort_eq adm env gn fn un pe jt (gs1 ++ g :: gs2) rng _ e hc
    (group_loop_first_failure adm env (un ++ "@" ++ adm.primary_domain) gs1 gs2 g e hok hfail)

/-- C1 amended witness: the concrete run with the first group failing. -/
theorem c1_amended_witness :
    create_user exAdm failEngEnv "Ada" "Lovelace" "ada" "ada@example.com"
      "Engineer" ([] ++ "eng" :: ["all-staff"]) exRng =
      (Action.insertUser (request_body exAdm "Ada" "Lovelace" "ada" "ada@example.com"
          "Engineer" (_generate_password exRng)) ::
        Action.progress (created_msg ([] ++ "eng" :: ["all-staff"])) ::
        (([].map fun x => Action.insertMember (x ++ "@" ++ exAdm.primary_domain)
            ("ada" ++ "@" ++ exAdm.primary_domain) "MEMBER") ++
          [Action.insertMember ("eng" ++ "@" ++ exAdm.primary_domain)
            ("ada" ++ "@" ++ exAdm.primary_domain) "MEMBER"]),
       .raised ⟨500⟩) :=
  c1_amended_group_failure_aborts exAdm failEngEnv "Ada" "Lovelace" "ada" "ada@example.com"
    "Engineer" [] ["all-staff"] "eng" exRng ⟨500⟩ rfl
    (fun x hx => absurd hx (List.not_mem_nil x)) rfl

end Godzillops
